import Mathlib

/-!
Verification development for the pdf-notebook viewer component
(src/components/PDFNotebook.tsx).

The component keeps per-page OCR text in a JavaScript object keyed by page
number (`ocrTexts`), pane visibility in three booleans, the enlarged-page
modal in `enlargedPage`/`isModalOpen`, and derives a concatenated export
string and a responsive render scale.  Each definition below is a direct
shallow embedding of the corresponding source function; theorems settle the
specified properties against these definitions.
-/

namespace PDFNotebook

/-- Whitespace characters handled by the JavaScript string primitives used
in the component (ASCII whitespace; the exotic Unicode space separators do
not occur in the texts under consideration). -/
def isJsWhitespace (c : Char) : Bool :=
  c = ' ' || c = '\t' || c = '\n' || c = '\r' || c = '\x0b' || c = '\x0c'

/-- `String.prototype.trim`, modelled over the character list: drop
whitespace from both ends. -/
def jsTrim (s : String) : String :=
  String.mk (((s.data.dropWhile isJsWhitespace).reverse.dropWhile
    isJsWhitespace).reverse)

/-- `text.split(sep).length` for a single-character separator: one more
than the number of separator occurrences. -/
def jsSplitLength (sep : Char) (s : String) : Nat :=
  s.data.count sep + 1

/-- `Array.prototype.join(sep)`. -/
def jsJoin (sep : String) : List String → String
  | [] => ""
  | [s] => s
  | s :: rest => s ++ sep ++ jsJoin sep rest

/-- The `ocrTexts` state: a JavaScript object mapping page numbers to
strings.  A key that was never assigned reads as `undefined`, modelled by
`none`. -/
def OcrTexts : Type := Nat → Option String

instance : Inhabited OcrTexts := ⟨fun _ => none⟩

/-- The empty object `{}`. -/
def OcrTexts.empty : OcrTexts := fun _ => none

/-- Property assignment `obj[p] = t` (or the spread `{...prev, [p]: t}`):
the entry for `p` becomes `t`, all other entries are unchanged. -/
def OcrTexts.insert (m : OcrTexts) (p : Nat) (t : String) : OcrTexts :=
  fun q => if q = p then some t else m q

/-- The read pattern `ocrTexts[p] || ''` used throughout the component:
an absent key (and the empty string) reads as the empty string. -/
def ocrGet (m : OcrTexts) (p : Nat) : String :=
  (m p).getD ""

/-- `onDocumentLoadSuccess`, synchronous seeding part:
`for (let i = 1; i <= numPages; i++) initialTexts[i] = ''`. -/
def initialTexts (numPages : Nat) : OcrTexts :=
  (List.range numPages).foldl (fun m i => m.insert (i + 1) "") OcrTexts.empty

/-- `handleOcrTextChange(pageNumber, text)`:
`setOcrTexts(prev => ({...prev, [pageNumber]: text}))`.  No range check. -/
def handleOcrTextChange (ocrTexts : OcrTexts) (pageNumber : Nat) (text : String) :
    OcrTexts :=
  ocrTexts.insert pageNumber text

/-- The modal state: `enlargedPage` and `isModalOpen`. -/
structure ModalState where
  enlargedPage : Option Nat
  isModalOpen : Bool
deriving DecidableEq

/-- `openEnlargedView(pageNumber)`: `setEnlargedPage(pageNumber);
setIsModalOpen(true)`.  No validation of the page number. -/
def openEnlargedView (_s : ModalState) (pageNumber : Nat) : ModalState :=
  { enlargedPage := some pageNumber, isModalOpen := true }

/-- `closeEnlargedView()`: `setEnlargedPage(null); setIsModalOpen(false)`. -/
def closeEnlargedView (_s : ModalState) : ModalState :=
  { enlargedPage := none, isModalOpen := false }

/-- Pane visibility state: `pdfVisible` (source pane), `textVisible`
(notes pane), `allTextVisible` (combined pane). -/
structure PaneState where
  pdfVisible : Bool
  textVisible : Bool
  allTextVisible : Bool
deriving DecidableEq

/-- `togglePdfVisibility()`: `if (pdfVisible && !textVisible) return;
setPdfVisible(prev => !prev)`. -/
def togglePdfVisibility (s : PaneState) : PaneState :=
  if s.pdfVisible && !s.textVisible then s
  else { s with pdfVisible := !s.pdfVisible }

/-- `toggleTextVisibility()`: `if (textVisible && !pdfVisible) return;
setTextVisible(prev => !prev)`. -/
def toggleTextVisibility (s : PaneState) : PaneState :=
  if s.textVisible && !s.pdfVisible then s
  else { s with textVisible := !s.textVisible }

/-- `toggleAllTextVisibility()`: `setAllTextVisible(prev => !prev)`,
unconditional. -/
def toggleAllTextVisibility (s : PaneState) : PaneState :=
  { s with allTextVisible := !s.allTextVisible }

/-- The three visibility toggles, as events for sequences of user clicks. -/
inductive PaneEvent where
  | togglePdf
  | toggleText
  | toggleAllText
deriving DecidableEq

/-- Dispatch one toggle click. -/
def paneStep (s : PaneState) : PaneEvent → PaneState
  | .togglePdf => togglePdfVisibility s
  | .toggleText => toggleTextVisibility s
  | .toggleAllText => toggleAllTextVisibility s

/-- Run a sequence of toggle clicks. -/
def runPanes (s : PaneState) (es : List PaneEvent) : PaneState :=
  es.foldl paneStep s

/-- The per-page text-extraction capability (pdfjs `getPage` +
`getTextContent` + join): given a document id and a page number it either
returns the joined page text or fails.  Treated as an external oracle. -/
def ExtractOracle : Type := Nat → Nat → Except Unit String

/-- The extraction loop of `onDocumentLoadSuccess`:
`for (pageNum = 1; pageNum <= numPages; pageNum++) { try { ...
extractedTexts[pageNum] = pageText } catch { warn; extractedTexts[pageNum] = '' } }`.
A failing page stores the empty string; the loop never aborts. -/
def extractedTexts (extract : ExtractOracle) (doc numPages : Nat) : OcrTexts :=
  (List.range numPages).foldl
    (fun m i =>
      match extract doc (i + 1) with
      | Except.ok pageText => m.insert (i + 1) pageText
      | Except.error _ => m.insert (i + 1) "")
    OcrTexts.empty

/-- An asynchronous extraction run spawned by `onDocumentLoadSuccess`.
The closure captures the `pdfFile` and `numPages` current at spawn time;
nothing else is recorded (in particular, no generation id). -/
structure ExtractionRun where
  doc : Nat
  numPages : Nat
deriving DecidableEq

/-- The component state relevant to loading and extraction, plus the list
of spawned extraction runs whose `setOcrTexts(extractedTexts)` has not yet
executed. -/
structure SystemState where
  pdfFile : Option Nat
  numPages : Option Nat
  ocrTexts : OcrTexts
  loading : Bool
  error : Option String
  pendingRuns : List ExtractionRun

/-- State before any file is selected. -/
def initialState : SystemState :=
  { pdfFile := none, numPages := none, ocrTexts := OcrTexts.empty,
    loading := false, error := none, pendingRuns := [] }

/-- Events of the single-threaded event loop: selecting a (valid PDF) file,
the document load-success callback firing, and a pending extraction run
completing (`setOcrTexts(extractedTexts)` executing).  The scheduler is
free to resolve pending runs at any later point. -/
inductive Event where
  | selectFile (doc : Nat)
  | loadSuccess (n : Nat)
  | resolveExtraction (idx : Nat)

/-- One step of the event loop.
`selectFile` follows the PDF branch of `onFileChange`: `setPdfFile(file);
setLoading(true); setError(null); setNumPages(null); setOcrTexts({})`.
`loadSuccess` follows the synchronous part of `onDocumentLoadSuccess`:
`setNumPages(numPages); setLoading(false); setError(null);
setOcrTexts(initialTexts)`, then, when `pdfFile` is non-null, spawns the
asynchronous extraction capturing the current `pdfFile`.
`resolveExtraction` is the delayed `setOcrTexts(extractedTexts)` of a
spawned run: it is applied unconditionally, with no staleness check. -/
def step (extract : ExtractOracle) (s : SystemState) : Event → SystemState
  | .selectFile doc =>
    { s with pdfFile := some doc, loading := true, error := none,
             numPages := none, ocrTexts := OcrTexts.empty }
  | .loadSuccess n =>
    let s1 := { s with numPages := some n, loading := false, error := none,
                       ocrTexts := initialTexts n }
    match s.pdfFile with
    | some doc => { s1 with pendingRuns := s.pendingRuns ++ [⟨doc, n⟩] }
    | none => s1
  | .resolveExtraction idx =>
    match s.pendingRuns.get? idx with
    | some r =>
      { s with ocrTexts := extractedTexts extract r.doc r.numPages,
               pendingRuns := s.pendingRuns.eraseIdx idx }
    | none => s

/-- Run a sequence of events. -/
def runEvents (extract : ExtractOracle) (s : SystemState) (es : List Event) :
    SystemState :=
  es.foldl (step extract) s

/-- `getAllConcatenatedText()`: `if (!numPages) return ''`, then for
`i = 1..numPages` push the header plus trimmed text whenever
`pageText && pageText.trim()` is truthy, finally `texts.join('\n\n')`. -/
def getAllConcatenatedText (numPages : Option Nat) (ocrTexts : OcrTexts) :
    String :=
  match numPages with
  | none => ""
  | some n =>
    if n = 0 then ""
    else
      jsJoin "\n\n"
        ((List.range n).foldl
          (fun acc i =>
            match ocrTexts (i + 1) with
            | some pageText =>
              if pageText ≠ "" ∧ jsTrim pageText ≠ "" then
                acc ++
                  ["=== Page " ++ toString (i + 1) ++ " ===\n" ++ jsTrim pageText]
              else acc
            | none => acc)
          ([] : List String))

/-- The rendering of a single page in the words of the specification: a
page whose trimmed text is empty is skipped entirely (no header emitted),
every other page is rendered as the header line `=== Page <n> ===`
followed by its trimmed text.  An absent page reads as empty and is
skipped. -/
def renderPageSpec (noteMap : OcrTexts) (p : Nat) : Option String :=
  match noteMap p with
  | some t =>
    if jsTrim t = "" then none
    else some ("=== Page " ++ toString p ++ " ===\n" ++ jsTrim t)
  | none => none

/-- The concatenation contract in the words of the specification: iterate
pages in ascending order `1..pageCount`, skip entirely every page whose
trimmed text is empty, render each included page as the header line
followed by its trimmed text, join included pages with a blank line. -/
def concatenateSpec (noteMap : OcrTexts) (pageCount : Nat) : String :=
  jsJoin "\n\n"
    (((List.range pageCount).map (· + 1)).filterMap (renderPageSpec noteMap))

/-- `calculateResponsiveScale(containerWidth, isModal)`, with the captured
state `pdfPageWidth` made an explicit argument.  Real arithmetic is
embedded in the rationals.  `!pdfPageWidth || !containerWidth` is the
zero test on the two widths. -/
def calculateResponsiveScale (pdfPageWidth containerWidth : ℚ)
    (isModal : Bool) : ℚ :=
  if pdfPageWidth = 0 ∨ containerWidth = 0 then
    if isModal then 3/2 else 4/5
  else
    max (3/10)
      (min (if isModal then 3 else 3/2)
        (containerWidth * (if isModal then 85/100 else 95/100) / pdfPageWidth))

/-- The layout mode enum. -/
inductive LayoutMode where
  | normal
  | comparison
  | reading
deriving DecidableEq

/-- `getTextareaHeight(pageNumber)`, with the captured `layoutMode` and
`ocrTexts` made explicit arguments.  In reading mode:
`text = ocrTexts[pageNumber] || ''`; empty trim short-circuits to the
minimum class; otherwise `lineCount = text.split('\n').length`,
`estimatedLines = max(lineCount, ceil(text.length / 60))`,
`totalLines = max(4, estimatedLines + 1)`, then the threshold chain of
minimum-height classes capped at `min-h-96`. -/
def getTextareaHeight (layoutMode : LayoutMode) (ocrTexts : OcrTexts)
    (pageNumber : Nat) : String :=
  match layoutMode with
  | .normal => "h-64"
  | .comparison => "h-650"
  | .reading =>
    let text := ocrGet ocrTexts pageNumber
    if jsTrim text = "" then "min-h-32"
    else
      let lineCount := jsSplitLength '\n' text
      let estimatedLines := max lineCount ((text.length + 59) / 60)
      let totalLines := max 4 (estimatedLines + 1)
      if totalLines ≤ 8 then "min-h-32"
      else if totalLines ≤ 16 then "min-h-48"
      else if totalLines ≤ 24 then "min-h-64"
      else if totalLines ≤ 32 then "min-h-80"
      else if totalLines ≤ 40 then "min-h-96"
      else "min-h-96"

/-- `getTextareaResize()`:
`layoutMode === 'reading' ? 'resize-y' : 'resize-none'`. -/
def getTextareaResize (layoutMode : LayoutMode) : String :=
  if layoutMode = LayoutMode.reading then "resize-y" else "resize-none"

/-- Pixel value of the Tailwind height classes produced by
`getTextareaHeight` (the numeric suffix is in units of 0.25rem = 4px),
used to compare editor heights. -/
def heightPx (c : String) : Nat :=
  if c = "min-h-32" then 128
  else if c = "min-h-48" then 192
  else if c = "min-h-64" then 256
  else if c = "min-h-80" then 320
  else if c = "min-h-96" then 384
  else if c = "h-64" then 256
  else if c = "h-650" then 650
  else 0

/-- The estimated line count as computed by the reading branch of
`getTextareaHeight`: `max(text.split('\n').length, ceil(text.length / 60))`. -/
def estimatedLinesOf (text : String) : Nat :=
  max (jsSplitLength '\n' text) ((text.length + 59) / 60)

/-- The estimated line count in the words of the claim:
`max(number of declared line breaks, ceil(charCount / 60))`.  The number of
declared line breaks is the number of newline characters in the text. -/
def claimEstimatedLines (text : String) : Nat :=
  max (text.data.count '\n') ((text.length + 59) / 60)

/-- The threshold chain of the reading branch of `getTextareaHeight`, as a
function of the estimated line count. -/
def readingBucket (estimatedLines : Nat) : String :=
  if max 4 (estimatedLines + 1) ≤ 8 then "min-h-32"
  else if max 4 (estimatedLines + 1) ≤ 16 then "min-h-48"
  else if max 4 (estimatedLines + 1) ≤ 24 then "min-h-64"
  else if max 4 (estimatedLines + 1) ≤ 32 then "min-h-80"
  else if max 4 (estimatedLines + 1) ≤ 40 then "min-h-96"
  else "min-h-96"

/-- The page texts of scenario 5 of the specification:
`{1:"A", 2:"   ", 3:"B"}`. -/
def examplePages : OcrTexts :=
  (OcrTexts.empty.insert 1 "A" |>.insert 2 "   " |>.insert 3 "B")

/-- The extraction oracle of scenario 2 of the specification: pages 1 and 3
succeed with hello and world, page 2 throws. -/
def exampleExtract : ExtractOracle := fun _ p =>
  if p = 1 then Except.ok "hello"
  else if p = 2 then Except.error ()
  else Except.ok "world"

/-- An oracle distinguishing the two documents of the stale-generation
scenario: every page of document 0 extracts to stale, every page of
document 1 extracts to fresh. -/
def staleOracle : ExtractOracle := fun doc _ =>
  Except.ok (if doc = 0 then "stale" else "fresh")

/-- The stale-generation scenario: document 0 (3 pages) is loaded, then
document 1 (2 pages) is loaded before the first extraction run resolves,
then the first (now superseded) extraction run resolves. -/
def staleTrace : List Event :=
  [Event.selectFile 0, Event.loadSuccess 3, Event.selectFile 1,
   Event.loadSuccess 2, Event.resolveExtraction 0]

/-- A page text consisting of ten newline characters (blank once trimmed,
but with ten declared line breaks). -/
def blankManyBreaks : String := String.mk (List.replicate 10 '\n')

/-- A page text of ten non-blank one-character lines (nine line breaks). -/
def tenShortLines : String := "x\nx\nx\nx\nx\nx\nx\nx\nx\nx"

/-- Note store holding `blankManyBreaks` on page 1 and `tenShortLines` on
page 2. -/
def heightCxPages : OcrTexts :=
  OcrTexts.empty.insert 1 blankManyBreaks |>.insert 2 tenShortLines

-- Basic lemmas about the note-store embedding.

theorem OcrTexts.insert_self (m : OcrTexts) (p : Nat) (t : String) :
    m.insert p t p = some t := by
  simp [OcrTexts.insert]

theorem OcrTexts.insert_other (m : OcrTexts) (p q : Nat) (t : String)
    (h : q ≠ p) : m.insert p t q = m q := by
  simp [OcrTexts.insert, h]

theorem initialTexts_succ (n : Nat) :
    initialTexts (n + 1) = (initialTexts n).insert (n + 1) "" := by
  unfold initialTexts
  rw [List.range_succ, List.foldl_append]
  rfl

theorem initialTexts_eq (n p : Nat) :
    initialTexts n p = if 1 ≤ p ∧ p ≤ n then some "" else none := by
  induction n with
  | zero =>
    have h0 : ¬ (1 ≤ p ∧ p ≤ 0) := by omega
    rw [if_neg h0]
    rfl
  | succ n ih =>
    rw [initialTexts_succ]
    by_cases hp : p = n + 1
    · subst hp
      have : 1 ≤ n + 1 ∧ n + 1 ≤ n + 1 := by omega
      simp [OcrTexts.insert_self, this]
    · rw [OcrTexts.insert_other _ _ _ _ hp, ih]
      by_cases h1 : 1 ≤ p ∧ p ≤ n
      · have h2 : 1 ≤ p ∧ p ≤ n + 1 := by omega
        simp [h1, h2]
      · have h2 : ¬ (1 ≤ p ∧ p ≤ n + 1) := by omega
        simp [h1, h2]

/-- A seeding loop `for (i = 1; i <= n; i++) m[i] = f(i)` starting from the
empty object produces exactly the keys `1..n`, key `p` holding `f p`. -/
theorem seedLoop_eq (f : Nat → String) (n p : Nat) :
    (List.range n).foldl (fun m i => m.insert (i + 1) (f (i + 1)))
      OcrTexts.empty p =
    if 1 ≤ p ∧ p ≤ n then some (f p) else none := by
  induction n with
  | zero =>
    have h0 : ¬ (1 ≤ p ∧ p ≤ 0) := by omega
    rw [if_neg h0]
    rfl
  | succ n ih =>
    rw [List.range_succ, List.foldl_append]
    by_cases hp : p = n + 1
    · subst hp
      have : 1 ≤ n + 1 ∧ n + 1 ≤ n + 1 := by omega
      simp only [List.foldl_cons, List.foldl_nil, if_pos this]
      exact OcrTexts.insert_self _ _ _
    · simp only [List.foldl_cons, List.foldl_nil]
      rw [OcrTexts.insert_other _ _ _ _ hp, ih]
      by_cases h1 : 1 ≤ p ∧ p ≤ n
      · have h2 : 1 ≤ p ∧ p ≤ n + 1 := by omega
        simp [h1, h2]
      · have h2 : ¬ (1 ≤ p ∧ p ≤ n + 1) := by omega
        simp [h1, h2]

/-- Value stored by the extraction loop for one page: the extracted text on
success, the empty string when the per-page extraction throws. -/
def pageValue (extract : ExtractOracle) (doc p : Nat) : String :=
  match extract doc p with
  | Except.ok t => t
  | Except.error _ => ""

theorem extractedTexts_eq (extract : ExtractOracle) (doc n p : Nat) :
    extractedTexts extract doc n p =
      if 1 ≤ p ∧ p ≤ n then some (pageValue extract doc p) else none := by
  have hbody :
      (fun (m : OcrTexts) i =>
        match extract doc (i + 1) with
        | Except.ok pageText => m.insert (i + 1) pageText
        | Except.error _ => m.insert (i + 1) "") =
      (fun (m : OcrTexts) i => m.insert (i + 1) (pageValue extract doc (i + 1))) := by
    funext m i
    unfold pageValue
    cases extract doc (i + 1) <;> rfl
  unfold extractedTexts
  rw [hbody]
  exact seedLoop_eq _ n p

/-- Each single toggle click keeps at least one of the two primary panes
visible. -/
theorem paneStep_preserves_primary (s : PaneState) (e : PaneEvent)
    (h : (s.pdfVisible || s.textVisible) = true) :
    ((paneStep s e).pdfVisible || (paneStep s e).textVisible) = true := by
  obtain ⟨p, t, a⟩ := s
  cases e <;> cases p <;> cases t <;>
    simp_all [paneStep, togglePdfVisibility, toggleTextVisibility,
      toggleAllTextVisibility]

/-- Any sequence of toggle clicks keeps at least one of the two primary
panes visible. -/
theorem runPanes_preserves_primary (es : List PaneEvent) :
    ∀ s : PaneState, (s.pdfVisible || s.textVisible) = true →
      ((runPanes s es).pdfVisible || (runPanes s es).textVisible) = true := by
  induction es with
  | nil => intro s h; exact h
  | cons e es ih =>
    intro s h
    exact ih (paneStep s e) (paneStep_preserves_primary s e h)

/-- In reading mode a page whose trimmed text is non-empty gets the height
class determined by the threshold chain on the estimated line count. -/
theorem reading_height_eq (m : OcrTexts) (p : Nat)
    (h : jsTrim (ocrGet m p) ≠ "") :
    getTextareaHeight LayoutMode.reading m p =
      readingBucket (estimatedLinesOf (ocrGet m p)) := by
  unfold getTextareaHeight readingBucket estimatedLinesOf
  rw [if_neg h]

/-- Pixel reading of the threshold chain, directly as a function of the
estimated line count. -/
theorem readingBucket_px (e : Nat) :
    heightPx (readingBucket e) =
      if e ≤ 7 then 128
      else if e ≤ 15 then 192
      else if e ≤ 23 then 256
      else if e ≤ 31 then 320
      else 384 := by
  unfold readingBucket
  split_ifs <;> first | rfl | omega

/-- The concatenation loop of `getAllConcatenatedText` pushes exactly the
renderings selected by `renderPageSpec`, in iteration order. -/
theorem concatLoop_eq (m : OcrTexts) (l : List Nat) (acc : List String) :
    l.foldl
      (fun acc i =>
        match m (i + 1) with
        | some pageText =>
          if pageText ≠ "" ∧ jsTrim pageText ≠ "" then
            acc ++
              ["=== Page " ++ toString (i + 1) ++ " ===\n" ++ jsTrim pageText]
          else acc
        | none => acc)
      acc =
    acc ++ l.filterMap (fun i => renderPageSpec m (i + 1)) := by
  induction l generalizing acc with
  | nil => simp
  | cons i l ih =>
    rw [List.foldl_cons, ih, List.filterMap_cons]
    cases hm : m (i + 1) with
    | none => simp [renderPageSpec, hm]
    | some t =>
      by_cases ht : jsTrim t = ""
      · have ht0 : ¬ (t ≠ "" ∧ jsTrim t ≠ "") := by simp [ht]
        simp [renderPageSpec, hm, ht, ht0]
      · have htne : t ≠ "" := by
          intro h0
          subst h0
          exact ht rfl
        simp [renderPageSpec, hm, ht, htne]

/-- `getAllConcatenatedText` computes exactly the specified concatenation. -/
theorem getAllConcatenatedText_eq_spec (m : OcrTexts) (n : Nat) :
    getAllConcatenatedText (some n) m = concatenateSpec m n := by
  dsimp only [getAllConcatenatedText, concatenateSpec]
  by_cases hn : n = 0
  · subst hn
    rfl
  · rw [if_neg hn, concatLoop_eq, List.filterMap_map, List.nil_append]
    rfl

-- Claim theorems.

/-- C1 (code_bug evidence): the code has no generation tagging, so the
result of a superseded extraction run does reach the Note Store.  On the
trace: select document 0, its load succeeds with 3 pages, select document
1, its load succeeds with 2 pages, then the extraction run spawned for
document 0 resolves.  The final state still belongs to document 1 (current
file 1, two pages), yet page 1 of the Note Store holds the stale text
extracted from document 0, and the stale key 3 exceeds the current page
count. -/
theorem stale_extraction_reaches_note_store :
    (runEvents staleOracle initialState staleTrace).pdfFile = some 1 ∧
    (runEvents staleOracle initialState staleTrace).numPages = some 2 ∧
    (runEvents staleOracle initialState staleTrace).ocrTexts 1 = some "stale" ∧
    (runEvents staleOracle initialState staleTrace).ocrTexts 3 = some "stale" := by
  decide

/-- C2 (counterexample): on a 5-page document, `openEnlargedView 99` with
99 outside `[1, 5]` is not rejected: it changes the modal state to
open-on-page-99 instead of leaving it unchanged. -/
theorem openModal_out_of_range_changes_state :
    ¬ (1 ≤ 99 ∧ 99 ≤ 5) ∧
    openEnlargedView { enlargedPage := none, isModalOpen := false } 99 =
      { enlargedPage := some 99, isModalOpen := true } ∧
    openEnlargedView { enlargedPage := none, isModalOpen := false } 99 ≠
      { enlargedPage := none, isModalOpen := false } := by
  decide

/-- C2 (amended): `openEnlargedView p` performs no validation at all: for
every page number `p`, in range or not, it sets the modal state to open on
page `p`. -/
theorem openModal_sets_state_unconditionally (s : ModalState) (p : Nat) :
    openEnlargedView s p = { enlargedPage := some p, isModalOpen := true } :=
  rfl

/-- C3 (counterexample): starting from the Note Store of a 2-page document
(key set exactly `{1, 2}`), `handleOcrTextChange 5 "x"` is not rejected:
it creates the out-of-range key 5, extending the key set beyond
`1..pageCount`. -/
theorem set_out_of_range_extends_key_set :
    ¬ (1 ≤ 5 ∧ 5 ≤ 2) ∧
    initialTexts 2 5 = none ∧
    handleOcrTextChange (initialTexts 2) 5 "x" 5 = some "x" := by
  decide

/-- C3 (amended): `handleOcrTextChange` performs no range check: even for a
page `p` outside `1..pageCount` it stores the text under key `p` (extending
the key set), leaving every other entry unchanged. -/
theorem set_out_of_range_still_updates (m : OcrTexts) (pageCount p q : Nat)
    (t : String) (_hp : ¬ (1 ≤ p ∧ p ≤ pageCount)) (hq : q ≠ p) :
    handleOcrTextChange m p t p = some t ∧
    handleOcrTextChange m p t q = m q := by
  unfold handleOcrTextChange OcrTexts.insert
  simp [hq]

/-- C3 witness. -/
theorem set_out_of_range_still_updates_witness :
    ¬ (1 ≤ 5 ∧ 5 ≤ 2) ∧ (1 : Nat) ≠ 5 ∧
    (handleOcrTextChange (initialTexts 2) 5 "x" 5 = some "x" ∧
     handleOcrTextChange (initialTexts 2) 5 "x" 1 = initialTexts 2 1) :=
  ⟨by decide, by decide,
   set_out_of_range_still_updates (initialTexts 2) 2 5 1 "x" (by decide) (by decide)⟩

/-- C4: the code concatenation agrees with the specified one on every note
map and page count (ascending iteration over `1..pageCount`, pages with
blank trimmed text skipped entirely, header line plus trimmed text per
included page, blank line between included pages), and scenario 5 of the
specification evaluates as stated. -/
theorem concatenation_correct (m : OcrTexts) (n : Nat) :
    getAllConcatenatedText (some n) m = concatenateSpec m n ∧
    getAllConcatenatedText (some 3) examplePages =
      "=== Page 1 ===\nA\n\n=== Page 3 ===\nB" :=
  ⟨getAllConcatenatedText_eq_spec m n, by decide⟩

/-- C5: for positive widths the scale is the documented clamp of
`containerWidth * ratio / pageWidth` into `[0.3, isModal ? 3.0 : 1.5]`, in
particular it lies within the bounds; when either width is zero the fixed
default `0.8` (normal) or `1.5` (modal) is returned. -/
theorem scale_clamped_with_default (w pw : ℚ) (isModal : Bool) :
    (0 < w → 0 < pw →
      (3/10 ≤ calculateResponsiveScale pw w isModal ∧
        calculateResponsiveScale pw w isModal ≤ (if isModal then 3 else 3/2)) ∧
      calculateResponsiveScale pw w isModal =
        max (3/10) (min (if isModal then 3 else 3/2)
          (w * (if isModal then 85/100 else 95/100) / pw))) ∧
    ((w = 0 ∨ pw = 0) →
      calculateResponsiveScale pw w isModal = (if isModal then 3/2 else 4/5)) := by
  constructor
  · intro hw hpw
    have hcond : ¬ (pw = 0 ∨ w = 0) := by
      push_neg
      exact ⟨ne_of_gt hpw, ne_of_gt hw⟩
    unfold calculateResponsiveScale
    rw [if_neg hcond]
    refine ⟨⟨le_max_left _ _, ?_⟩, rfl⟩
    refine max_le ?_ (min_le_left _ _)
    cases isModal <;> norm_num
  · intro h
    unfold calculateResponsiveScale
    rw [if_pos h.symm]

/-- C5 witness: scenario 3 (`scale(1000, 800, false)` is in bounds and
equals the clamp of `950/800`) and scenario 4 (`scale(0, 800, false)`
falls back to the default). -/
theorem scale_clamped_with_default_witness :
    (0 : ℚ) < 1000 ∧ (0 : ℚ) < 800 ∧
    ((3/10 ≤ calculateResponsiveScale 800 1000 false ∧
       calculateResponsiveScale 800 1000 false ≤ (if false then 3 else 3/2)) ∧
      calculateResponsiveScale 800 1000 false =
        max (3/10) (min (if false then 3 else 3/2)
          (1000 * (if false then (85 : ℚ)/100 else 95/100) / 800))) ∧
    calculateResponsiveScale 800 0 false = (if false then (3 : ℚ)/2 else 4/5) :=
  ⟨by norm_num, by norm_num,
   (scale_clamped_with_default 1000 800 false).1 (by norm_num) (by norm_num),
   (scale_clamped_with_default 0 800 false).2 (Or.inl rfl)⟩

/-- C6: from any state with a primary pane visible, every sequence of
toggle clicks keeps a primary pane visible; a primary toggle flips its flag
exactly when the flip would not leave both primary panes hidden (otherwise
it is a no-op); the combined-pane toggle is unconditional, so the combined
pane can be hidden alone. -/
theorem pane_visibility_invariant (s : PaneState) (es : List PaneEvent)
    (h : (s.pdfVisible || s.textVisible) = true) :
    ((runPanes s es).pdfVisible || (runPanes s es).textVisible) = true ∧
    togglePdfVisibility s =
      (if (!s.pdfVisible || s.textVisible) then
        { s with pdfVisible := !s.pdfVisible }
      else s) ∧
    toggleTextVisibility s =
      (if (!s.textVisible || s.pdfVisible) then
        { s with textVisible := !s.textVisible }
      else s) ∧
    toggleAllTextVisibility s = { s with allTextVisible := !s.allTextVisible } := by
  refine ⟨runPanes_preserves_primary es s h, ?_, ?_, rfl⟩
  · obtain ⟨p, t, a⟩ := s
    cases p <;> cases t <;> simp [togglePdfVisibility]
  · obtain ⟨p, t, a⟩ := s
    cases p <;> cases t <;> simp [toggleTextVisibility]

/-- C6 witness. -/
theorem pane_visibility_invariant_witness :
    ((true || false) = true) ∧
    (((runPanes ⟨true, false, true⟩ [PaneEvent.togglePdf]).pdfVisible ||
        (runPanes ⟨true, false, true⟩ [PaneEvent.togglePdf]).textVisible) = true ∧
     togglePdfVisibility ⟨true, false, true⟩ =
       (if (!true || false) then
         { PaneState.mk true false true with pdfVisible := !true }
       else ⟨true, false, true⟩) ∧
     toggleTextVisibility ⟨true, false, true⟩ =
       (if (!false || true) then
         { PaneState.mk true false true with textVisible := !false }
       else ⟨true, false, true⟩) ∧
     toggleAllTextVisibility ⟨true, false, true⟩ =
       { PaneState.mk true false true with allTextVisible := !true }) :=
  ⟨rfl, pane_visibility_invariant ⟨true, false, true⟩ [PaneEvent.togglePdf] rfl⟩

/-- C7: immediately after the load-success event (before any extraction
result is applied), the Note Store holds exactly the keys `1..n` of the
`n`-page document, every value the empty string. -/
theorem load_seeds_note_store (extract : ExtractOracle) (s : SystemState)
    (n p : Nat) :
    (step extract s (Event.loadSuccess n)).ocrTexts p =
      if 1 ≤ p ∧ p ≤ n then some "" else none := by
  cases h : s.pdfFile <;> simp [step, h, initialTexts_eq]

/-- C8: the extraction loop attempts every page `1..n`: page `p` in range
ends up with its extracted text on success and with the empty string when
its per-page extraction throws, independently of every other page; pages
out of range are untouched.  Scenario 2 of the specification (success on
pages 1 and 3 with hello and world, a throw on page 2) yields exactly
`{1: hello, 2: empty, 3: world}`. -/
theorem extraction_isolates_page_failures (extract : ExtractOracle)
    (doc n p : Nat) :
    (extractedTexts extract doc n p =
      if 1 ≤ p ∧ p ≤ n then some (pageValue extract doc p) else none) ∧
    (extractedTexts exampleExtract 0 3 1 = some "hello" ∧
     extractedTexts exampleExtract 0 3 2 = some "" ∧
     extractedTexts exampleExtract 0 3 3 = some "world" ∧
     extractedTexts exampleExtract 0 3 4 = none) :=
  ⟨extractedTexts_eq extract doc n p, by decide, by decide, by decide, by decide⟩

/-- C9 (counterexample): editor height in reading mode is not a monotone
function of the estimated line count.  Page 1 holds ten newline characters
(ten declared line breaks, estimate 10 under the claim reading and 11 under
the code computation); page 2 holds ten one-character lines (estimate 9,
resp. 10) — a smaller estimate either way — yet page 1 gets the minimum
class (128 px) because its trimmed text is blank, while page 2 gets 192 px. -/
theorem reading_height_not_monotone :
    claimEstimatedLines tenShortLines ≤ claimEstimatedLines blankManyBreaks ∧
    estimatedLinesOf tenShortLines ≤ estimatedLinesOf blankManyBreaks ∧
    heightPx (getTextareaHeight LayoutMode.reading heightCxPages 1) <
      heightPx (getTextareaHeight LayoutMode.reading heightCxPages 2) := by
  decide

/-- C9 (amended): in reading mode, among pages whose trimmed text is
non-blank the height is monotonically non-decreasing in the estimated line
count `max(split-line count, ceil(charCount / 60))` and capped at the
`min-h-96` class (384 px); a page whose trimmed text is blank always gets
the minimum class; reading is the only layout mode whose editor permits
user resizing. -/
theorem reading_height_monotone_nonblank (m m2 mb : OcrTexts) (p p2 pb : Nat)
    (h : jsTrim (ocrGet m p) ≠ "") (h2 : jsTrim (ocrGet m2 p2) ≠ "")
    (hle : estimatedLinesOf (ocrGet m p) ≤ estimatedLinesOf (ocrGet m2 p2))
    (hb : jsTrim (ocrGet mb pb) = "") :
    heightPx (getTextareaHeight LayoutMode.reading m p) ≤
      heightPx (getTextareaHeight LayoutMode.reading m2 p2) ∧
    heightPx (getTextareaHeight LayoutMode.reading m2 p2) ≤ 384 ∧
    getTextareaHeight LayoutMode.reading mb pb = "min-h-32" ∧
    getTextareaResize LayoutMode.reading = "resize-y" ∧
    getTextareaResize LayoutMode.normal = "resize-none" ∧
    getTextareaResize LayoutMode.comparison = "resize-none" := by
  rw [reading_height_eq m p h, reading_height_eq m2 p2 h2, readingBucket_px,
    readingBucket_px]
  refine ⟨?_, ?_, ?_, rfl, rfl, rfl⟩
  · split_ifs <;> omega
  · split_ifs <;> omega
  · unfold getTextareaHeight
    rw [if_pos hb]

/-- C9 witness. -/
theorem reading_height_monotone_nonblank_witness :
    jsTrim (ocrGet heightCxPages 2) ≠ "" ∧
    estimatedLinesOf (ocrGet heightCxPages 2) ≤
      estimatedLinesOf (ocrGet heightCxPages 2) ∧
    jsTrim (ocrGet heightCxPages 1) = "" ∧
    (heightPx (getTextareaHeight LayoutMode.reading heightCxPages 2) ≤
       heightPx (getTextareaHeight LayoutMode.reading heightCxPages 2) ∧
     heightPx (getTextareaHeight LayoutMode.reading heightCxPages 2) ≤ 384 ∧
     getTextareaHeight LayoutMode.reading heightCxPages 1 = "min-h-32" ∧
     getTextareaResize LayoutMode.reading = "resize-y" ∧
     getTextareaResize LayoutMode.normal = "resize-none" ∧
     getTextareaResize LayoutMode.comparison = "resize-none") :=
  ⟨by decide, by decide, by decide,
   reading_height_monotone_nonblank heightCxPages heightCxPages heightCxPages
     2 2 1 (by decide) (by decide) (by decide) (by decide)⟩

/-- C10: `handleOcrTextChange p t` changes only page `p`: afterwards the
read of page `p` yields `t`, and every other page `q` holds exactly its
previous entry (both the raw entry and the displayed text). -/
theorem set_updates_only_target_page (m : OcrTexts) (p : Nat) (t : String)
    (q : Nat) (h : q ≠ p) :
    ocrGet (handleOcrTextChange m p t) p = t ∧
    handleOcrTextChange m p t q = m q ∧
    ocrGet (handleOcrTextChange m p t) q = ocrGet m q := by
  unfold handleOcrTextChange ocrGet OcrTexts.insert
  simp [h]

/-- C10 witness. -/
theorem set_updates_only_target_page_witness :
    (1 : Nat) ≠ 2 ∧
    (ocrGet (handleOcrTextChange (initialTexts 3) 2 "edited") 2 = "edited" ∧
     handleOcrTextChange (initialTexts 3) 2 "edited" 1 = initialTexts 3 1 ∧
     ocrGet (handleOcrTextChange (initialTexts 3) 2 "edited") 1 =
       ocrGet (initialTexts 3) 1) :=
  ⟨by decide, set_updates_only_target_page (initialTexts 3) 2 "edited" 1 (by decide)⟩

end PDFNotebook
